import Mathlib

/-!
Verification of the deployment submit/poll/infer core of the ai-builder CLI
(`OpenShiftDeployment` and `RHODSIntegration` classes).

The embedding models the HTTP layer by its observable outcomes: each outbound
request is represented by a `RequestOutcome` value (the four ways a request
can end in the source's `makeRequest`/`makeRHODSRequest`), and every
network-interacting method is a pure function of the sequence of such
outcomes.  Clock reads (`new Date().toISOString()`) are passed in as a `now`
argument, and `sleep` calls are recorded as events in a trace.
-/

/-- Parsed JSON body of a status query (`GET /status/<name>`).  Every field is
optional because the remote body is free-form JSON: the source reads
`status.status`, `status.endpoint`, `status.error` (and `makeRHODSRequest`
can itself fabricate a body carrying only `success` and `error`). -/
structure StatusResponse where
  status : Option String
  endpoint : Option String
  error : Option String
  success : Option Bool
deriving DecidableEq, Repr

/-- Parsed JSON body of a deploy request (`POST /deploy`), as read by
`deployModel`: a `success` flag plus optional `endpoint` and `error`. -/
structure DeployResponse where
  success : Bool
  endpoint : Option String
  error : Option String
deriving DecidableEq, Repr

/-- The four ways an HTTP request ends in the source transport wrappers:
a 2xx response with a parseable body, a socket-level error
(`req.on('error', ...)`), a non-2xx response whose body parsed, or a body
that `JSON.parse` rejected. -/
inductive RequestOutcome (α : Type) where
  | success (r : α)
  | transportFault (msg : String)
  | httpError (code : Nat) (errField : Option String)
  | parseFailure (msg : String)
deriving DecidableEq, Repr

/-- JavaScript `x || dflt` on an optional string field: `undefined` and the
empty string are falsy, any other string is returned as is. -/
def jsOr (v : Option String) (dflt : String) : String :=
  match v with
  | some s => if s = "" then dflt else s
  | none => dflt

/-- JavaScript template interpolation of an optional string field:
an `undefined` field renders as the literal text `undefined`. -/
def jsTemplate (v : Option String) : String :=
  match v with
  | some s => s
  | none => "undefined"

/-- `OpenShiftDeployment.makeRequest` (part_000:491-539): resolves the parsed
body on 2xx; rejects with the socket error message on transport failure;
rejects with `response.error || HTTP <code>` on a parsed non-2xx body; rejects
with `Invalid response: <msg>` when `JSON.parse` throws. -/
def OpenShiftDeployment.makeRequest {α : Type} : RequestOutcome α → Except String α
  | .success r => .ok r
  | .transportFault m => .error m
  | .httpError code errField => .error (jsOr errField ("HTTP " ++ toString code))
  | .parseFailure m => .error ("Invalid response: " ++ m)

/-- `OpenShiftDeployment.getDeploymentStatus` (part_000:450-457): returns the
response of one status query, converting any rejection into a locally built
`{ status: 'unknown', error: <message> }` value instead of rethrowing. -/
def OpenShiftDeployment.getDeploymentStatus
    (req : RequestOutcome StatusResponse) : StatusResponse :=
  match OpenShiftDeployment.makeRequest req with
  | .ok r => r
  | .error msg => { status := some "unknown", endpoint := none, error := some msg, success := none }

/-- `RHODSIntegration.makeRHODSRequest` (part_000:1130-1178): same as the
OpenShift transport except that a body `JSON.parse` failure RESOLVES with
`{ success: false, error: 'Invalid response: <msg>' }` (no `status` field)
instead of rejecting. -/
def RHODSIntegration.makeRHODSRequest
    (req : RequestOutcome StatusResponse) : Except String StatusResponse :=
  match req with
  | .success r => .ok r
  | .transportFault m => .error m
  | .httpError code errField => .error (jsOr errField ("HTTP " ++ toString code))
  | .parseFailure m =>
      .ok { status := none, endpoint := none,
            error := some ("Invalid response: " ++ m), success := some false }

/-- `RHODSIntegration.getDeploymentStatus` (part_000:978-985): like the
OpenShift version, converting any rejection of `makeRHODSRequest` into a
local `{ status: 'unknown', error: <message> }` value. -/
def RHODSIntegration.getDeploymentStatus
    (req : RequestOutcome StatusResponse) : StatusResponse :=
  match RHODSIntegration.makeRHODSRequest req with
  | .ok r => r
  | .error msg => { status := some "unknown", endpoint := none, error := some msg, success := none }

/-- Observable events of one poll session: the k-th status query (1-indexed
attempt counter, as in the source `for` loop) and a timed suspension of the
given number of milliseconds (`await this.sleep(delay)`). -/
inductive Event where
  | query (attempt : Nat)
  | sleep (ms : Nat)
deriving DecidableEq, Repr

/-- Number of status queries recorded in a trace. -/
def countQueries : List Event → Nat
  | [] => 0
  | .query _ :: rest => countQueries rest + 1
  | .sleep _ :: rest => countQueries rest

/-- True when no two status queries are adjacent in the trace: since a trace
consists only of queries and suspensions, this says every pair of successive
queries has at least one timed suspension strictly between them. -/
def noAdjacentQueries : List Event → Bool
  | .query _ :: .query _ :: _ => false
  | _ :: rest => noAdjacentQueries rest
  | [] => true

/-- True when every suspension in the trace lasts exactly `d` milliseconds. -/
def allSleepsHave (d : Nat) : List Event → Bool
  | [] => true
  | .sleep m :: rest => m == d && allSleepsHave d rest
  | .query _ :: rest => allSleepsHave d rest

/-- The per-integration parameters of the duplicated `monitorDeployment`
loop: how a status string is classified (the two inline `===` comparisons),
how one status query is performed, how the thrown failure message renders
`status.error`, and the polling interval in milliseconds. -/
structure PollerCfg where
  isReadyStr : Option String → Bool
  isFailedStr : Option String → Bool
  getStatus : RequestOutcome StatusResponse → StatusResponse
  renderFailMsg : Option String → String
  delay : Nat

/-- The body of `monitorDeployment` (part_000:424-447 and 952-972), shared by
both integrations.  `attempt` is the loop counter; `fuel` the number of
attempts still allowed (`maxAttempts - attempt + 1`), so `fuel = 1` inside
the body means `attempt === maxAttempts`.  Faithful points: the `throw` for
a failed status sits inside the `try`, so the surrounding `catch` swallows it
(sleeping and retrying) unless this is the last attempt; `getStatus` itself
never throws, so nothing else reaches the `catch`; a non-terminal status on
the last attempt still sleeps before the loop exits and the generic
`Deployment timeout` error is thrown. -/
def monitorAux (cfg : PollerCfg) (responses : Nat → RequestOutcome StatusResponse) :
    Nat → Nat → Except String StatusResponse × List Event
  | _, 0 => (.error "Deployment timeout", [])
  | attempt, fuel + 1 =>
      let status := cfg.getStatus (responses attempt)
      if cfg.isReadyStr status.status then
        (.ok status, [.query attempt])
      else if cfg.isFailedStr status.status then
        if fuel = 0 then
          (.error ("Deployment failed: " ++ cfg.renderFailMsg status.error), [.query attempt])
        else
          let r := monitorAux cfg responses (attempt + 1) fuel
          (r.1, .query attempt :: .sleep cfg.delay :: r.2)
      else
        let r := monitorAux cfg responses (attempt + 1) fuel
        (r.1, .query attempt :: .sleep cfg.delay :: r.2)

/-- `OpenShiftDeployment.monitorDeployment` (part_000:418-447): accepts
exactly the status string `ready` as terminal success and exactly `failed`
as terminal failure; the thrown message interpolates `status.error`
(rendering `undefined` when absent); 5000 ms interval.  The source fixes
`maxAttempts = 30` (see `OpenShiftDeployment.maxAttempts`); the attempt
budget is a parameter here so the loop can be analysed at every budget. -/
def OpenShiftDeployment.pollerCfg : PollerCfg where
  isReadyStr := fun s => s == some "ready"
  isFailedStr := fun s => s == some "failed"
  getStatus := OpenShiftDeployment.getDeploymentStatus
  renderFailMsg := jsTemplate
  delay := 5000

/-- The `maxAttempts` constant of `OpenShiftDeployment.monitorDeployment`. -/
def OpenShiftDeployment.maxAttempts : Nat := 30

/-- The `delay` constant of `OpenShiftDeployment.monitorDeployment`. -/
def OpenShiftDeployment.delay : Nat := 5000

/-- One poll session of `OpenShiftDeployment.monitorDeployment`:
the outcome (`.ok` = returned status, `.error` = thrown message) together
with the trace of queries and suspensions.  `responses k` is the outcome of
the HTTP request made by the k-th status query. -/
def OpenShiftDeployment.monitorDeployment
    (responses : Nat → RequestOutcome StatusResponse) (maxAttempts : Nat) :
    Except String StatusResponse × List Event :=
  monitorAux OpenShiftDeployment.pollerCfg responses 1 maxAttempts

/-- `RHODSIntegration.monitorDeployment` (part_000:946-975): accepts `ready`
or `succeeded` as terminal success and `failed` or `error` as terminal
failure; the thrown message uses `status.error || 'Unknown error'`;
10000 ms interval; same `maxAttempts = 30` constant. -/
def RHODSIntegration.pollerCfg : PollerCfg where
  isReadyStr := fun s => s == some "ready" || s == some "succeeded"
  isFailedStr := fun s => s == some "failed" || s == some "error"
  getStatus := RHODSIntegration.getDeploymentStatus
  renderFailMsg := fun e => jsOr e "Unknown error"
  delay := 10000

/-- The `maxAttempts` constant of `RHODSIntegration.monitorDeployment`. -/
def RHODSIntegration.maxAttempts : Nat := 30

/-- The `delay` constant of `RHODSIntegration.monitorDeployment`. -/
def RHODSIntegration.delay : Nat := 10000

/-- One poll session of `RHODSIntegration.monitorDeployment`. -/
def RHODSIntegration.monitorDeployment
    (responses : Nat → RequestOutcome StatusResponse) (maxAttempts : Nat) :
    Except String StatusResponse × List Event :=
  monitorAux RHODSIntegration.pollerCfg responses 1 maxAttempts

/-- The trace produced by `n` consecutive non-terminating attempts starting
at attempt `a` with interval `d`: each query is followed by one suspension. -/
def interTrace (d : Nat) (a : Nat) : Nat → List Event
  | 0 => []
  | n + 1 => .query a :: .sleep d :: interTrace d (a + 1) n

/-- A record of the in-memory deployment map `this.deployments`
(part_000:397-401): the fields stored by `deployModel`. -/
structure DeploymentRecord where
  endpoint : Option String
  status : String
  deployed_at : String
deriving DecidableEq, Repr

/-- The in-memory store `this.deployments : Map<string, record>`, as an
insertion-ordered association list. -/
abbrev Store := List (String × DeploymentRecord)

/-- JavaScript `Map.get`. -/
def Store.get : Store → String → Option DeploymentRecord
  | [], _ => none
  | (k, v) :: rest, key => if k = key then some v else Store.get rest key

/-- JavaScript `Map.set`: overwrite in place if the key exists, else append. -/
def Store.set : Store → String → DeploymentRecord → Store
  | [], key, v => [(key, v)]
  | (k, w) :: rest, key, v =>
      if k = key then (key, v) :: rest else (k, w) :: Store.set rest key v

/-- `OpenShiftDeployment.deployModel` (part_000:374-415): one deploy request;
on a resolved body with a truthy `success` flag it stores
`{ endpoint, status: 'deploying', deployed_at }` under `name` and hands off
to `monitorDeployment`; on `success` false it throws
`response.error || 'Deployment failed'`; a rejected request is rethrown.  No
retry is performed: exactly the one `deployReq` outcome is consumed.  The
monitor's body never references `this.deployments`, so the store resulting
from the submission is returned alongside the poll outcome unchanged.
`now` stands for `new Date().toISOString()`. -/
def OpenShiftDeployment.deployModel (store : Store) (name : String) (now : String)
    (deployReq : RequestOutcome DeployResponse)
    (statusResponses : Nat → RequestOutcome StatusResponse) (maxAttempts : Nat) :
    Except String StatusResponse × Store × List Event :=
  match OpenShiftDeployment.makeRequest deployReq with
  | .error msg => (.error msg, store, [])
  | .ok response =>
      if response.success then
        let record : DeploymentRecord :=
          { endpoint := response.endpoint, status := "deploying", deployed_at := now }
        let store' := Store.set store name record
        let m := OpenShiftDeployment.monitorDeployment statusResponses maxAttempts
        (m.1, store', m.2)
      else
        (.error (jsOr response.error "Deployment failed"), store, [])

/-- `OpenShiftDeployment.runInference` (part_000:460-488): looks the name up
in `this.deployments` first and throws `Model <name> not deployed` before any
request when it is absent; otherwise performs exactly one inference request.
The second component counts the outbound requests made. -/
def OpenShiftDeployment.runInference {α : Type} (store : Store) (modelName : String)
    (req : RequestOutcome α) : Except String α × Nat :=
  match Store.get store modelName with
  | none => (.error ("Model " ++ modelName ++ " not deployed"), 0)
  | some _ => (OpenShiftDeployment.makeRequest req, 1)

/-! ### General lemmas about the shared poll loop -/

theorem monitorAux_ready_step (cfg : PollerCfg) (responses : Nat → RequestOutcome StatusResponse)
    (a fuel : Nat)
    (hr : cfg.isReadyStr ((cfg.getStatus (responses a)).status) = true) :
    monitorAux cfg responses a (fuel + 1) = (.ok (cfg.getStatus (responses a)), [.query a]) := by
  simp [monitorAux, hr]

theorem monitorAux_failed_last_step (cfg : PollerCfg)
    (responses : Nat → RequestOutcome StatusResponse) (a : Nat)
    (hr : cfg.isReadyStr ((cfg.getStatus (responses a)).status) = false)
    (hf : cfg.isFailedStr ((cfg.getStatus (responses a)).status) = true) :
    monitorAux cfg responses a 1 =
      (.error ("Deployment failed: " ++ cfg.renderFailMsg ((cfg.getStatus (responses a)).error)),
        [.query a]) := by
  simp [monitorAux, hr, hf]

theorem monitorAux_nonterminal_step (cfg : PollerCfg)
    (responses : Nat → RequestOutcome StatusResponse) (a fuel : Nat)
    (hr : cfg.isReadyStr ((cfg.getStatus (responses a)).status) = false)
    (hf : cfg.isFailedStr ((cfg.getStatus (responses a)).status) = false) :
    monitorAux cfg responses a (fuel + 1) =
      ((monitorAux cfg responses (a + 1) fuel).1,
        .query a :: .sleep cfg.delay :: (monitorAux cfg responses (a + 1) fuel).2) := by
  simp [monitorAux, hr, hf]

theorem monitorAux_continue_step (cfg : PollerCfg)
    (responses : Nat → RequestOutcome StatusResponse) (a fuel : Nat)
    (hfuel : fuel ≠ 0)
    (hr : cfg.isReadyStr ((cfg.getStatus (responses a)).status) = false) :
    monitorAux cfg responses a (fuel + 1) =
      ((monitorAux cfg responses (a + 1) fuel).1,
        .query a :: .sleep cfg.delay :: (monitorAux cfg responses (a + 1) fuel).2) := by
  by_cases hf : cfg.isFailedStr ((cfg.getStatus (responses a)).status) = true
  · simp [monitorAux, hr, hf, hfuel]
  · exact monitorAux_nonterminal_step cfg responses a fuel hr (by simpa using hf)

theorem monitorAux_timeout (cfg : PollerCfg) (responses : Nat → RequestOutcome StatusResponse)
    (fuel : Nat) :
    ∀ a : Nat,
      (∀ j, a ≤ j → j < a + fuel →
        cfg.isReadyStr ((cfg.getStatus (responses j)).status) = false ∧
        cfg.isFailedStr ((cfg.getStatus (responses j)).status) = false) →
      monitorAux cfg responses a fuel =
        (.error "Deployment timeout", interTrace cfg.delay a fuel) := by
  induction fuel with
  | zero => intro a _; simp [monitorAux, interTrace]
  | succ fuel ih =>
      intro a h
      obtain ⟨hr, hf⟩ := h a (Nat.le_refl a) (by omega)
      rw [monitorAux_nonterminal_step cfg responses a fuel hr hf,
        ih (a + 1) (fun j h1 h2 => h j (by omega) (by omega))]
      simp [interTrace]

theorem monitorAux_reach (cfg : PollerCfg) (responses : Nat → RequestOutcome StatusResponse)
    (d : Nat) :
    ∀ a fuel : Nat, d < fuel →
      (∀ j, a ≤ j → j < a + d → cfg.isReadyStr ((cfg.getStatus (responses j)).status) = false) →
      monitorAux cfg responses a fuel =
        ((monitorAux cfg responses (a + d) (fuel - d)).1,
          interTrace cfg.delay a d ++ (monitorAux cfg responses (a + d) (fuel - d)).2) := by
  induction d with
  | zero => intro a fuel _ _; simp [interTrace]
  | succ d ih =>
      intro a fuel hd h
      obtain ⟨fuel', rfl⟩ : ∃ f, fuel = f + 1 := ⟨fuel - 1, by omega⟩
      have hr := h a (Nat.le_refl a) (by omega)
      rw [monitorAux_continue_step cfg responses a fuel' (by omega) hr,
        ih (a + 1) fuel' (by omega) (fun j h1 h2 => h j (by omega) (by omega))]
      have h1 : a + 1 + d = a + (d + 1) := by omega
      have h2 : fuel' - d = fuel' + 1 - (d + 1) := by omega
      rw [h1, h2]
      simp [interTrace]

theorem monitorAux_ready_at (cfg : PollerCfg) (responses : Nat → RequestOutcome StatusResponse)
    (a fuel k : Nat) (hak : a ≤ k) (hkf : k < a + fuel)
    (h : ∀ j, a ≤ j → j < k → cfg.isReadyStr ((cfg.getStatus (responses j)).status) = false)
    (hk : cfg.isReadyStr ((cfg.getStatus (responses k)).status) = true) :
    monitorAux cfg responses a fuel =
      (.ok (cfg.getStatus (responses k)),
        interTrace cfg.delay a (k - a) ++ [.query k]) := by
  have hreach := monitorAux_reach cfg responses (k - a) a fuel (by omega)
    (fun j h1 h2 => h j h1 (by omega))
  rw [Nat.add_sub_cancel' hak] at hreach
  obtain ⟨f', hf'⟩ : ∃ f, fuel - (k - a) = f + 1 := ⟨fuel - (k - a) - 1, by omega⟩
  rw [hf'] at hreach
  rw [hreach, monitorAux_ready_step cfg responses k f' hk]

theorem monitorAux_failed_at_last (cfg : PollerCfg)
    (responses : Nat → RequestOutcome StatusResponse)
    (a fuel k : Nat) (hak : a ≤ k) (hkf : k + 1 = a + fuel)
    (h : ∀ j, a ≤ j → j < k → cfg.isReadyStr ((cfg.getStatus (responses j)).status) = false)
    (hkr : cfg.isReadyStr ((cfg.getStatus (responses k)).status) = false)
    (hkfail : cfg.isFailedStr ((cfg.getStatus (responses k)).status) = true) :
    monitorAux cfg responses a fuel =
      (.error ("Deployment failed: " ++ cfg.renderFailMsg ((cfg.getStatus (responses k)).error)),
        interTrace cfg.delay a (k - a) ++ [.query k]) := by
  have hreach := monitorAux_reach cfg responses (k - a) a fuel (by omega)
    (fun j h1 h2 => h j h1 (by omega))
  rw [Nat.add_sub_cancel' hak] at hreach
  have hone : fuel - (k - a) = 1 := by omega
  rw [hone] at hreach
  rw [hreach, monitorAux_failed_last_step cfg responses k hkr hkfail]

theorem monitorAux_query_mem (cfg : PollerCfg) (responses : Nat → RequestOutcome StatusResponse)
    (a fuel : Nat) (hfuel : fuel ≠ 0) :
    Event.query a ∈ (monitorAux cfg responses a fuel).2 := by
  obtain ⟨f, rfl⟩ : ∃ f, fuel = f + 1 := ⟨fuel - 1, by omega⟩
  by_cases hr : cfg.isReadyStr ((cfg.getStatus (responses a)).status) = true
  · simp [monitorAux_ready_step cfg responses a f hr]
  · replace hr : cfg.isReadyStr ((cfg.getStatus (responses a)).status) = false := by
      simpa using hr
    by_cases hfl : cfg.isFailedStr ((cfg.getStatus (responses a)).status) = true
    · by_cases hz : f = 0
      · subst hz
        simp [monitorAux_failed_last_step cfg responses a hr hfl]
      · simp [monitorAux_continue_step cfg responses a f hz hr]
    · simp [monitorAux_nonterminal_step cfg responses a f hr (by simpa using hfl)]

theorem monitorAux_continues_past (cfg : PollerCfg)
    (responses : Nat → RequestOutcome StatusResponse)
    (a fuel k : Nat) (hak : a ≤ k) (hkf : k + 1 < a + fuel)
    (h : ∀ j, a ≤ j → j < k → cfg.isReadyStr ((cfg.getStatus (responses j)).status) = false)
    (hkr : cfg.isReadyStr ((cfg.getStatus (responses k)).status) = false) :
    Event.query (k + 1) ∈ (monitorAux cfg responses a fuel).2 := by
  have hreach := monitorAux_reach cfg responses (k - a) a fuel (by omega)
    (fun j h1 h2 => h j h1 (by omega))
  rw [Nat.add_sub_cancel' hak] at hreach
  obtain ⟨f', hf'⟩ : ∃ f, fuel - (k - a) = f + 1 := ⟨fuel - (k - a) - 1, by omega⟩
  rw [hf'] at hreach
  rw [hreach]
  have hstep := monitorAux_continue_step cfg responses k f' (by omega) hkr
  rw [hstep]
  have hmem := monitorAux_query_mem cfg responses (k + 1) f' (by omega)
  simp only [List.mem_append]
  right
  simp [hmem]

/-! ### Counting queries in traces -/

theorem countQueries_append (l1 l2 : List Event) :
    countQueries (l1 ++ l2) = countQueries l1 + countQueries l2 := by
  induction l1 with
  | nil => simp [countQueries]
  | cons e rest ih => cases e <;> simp [countQueries, ih] <;> omega

theorem countQueries_interTrace (d a n : Nat) :
    countQueries (interTrace d a n) = n := by
  induction n generalizing a with
  | zero => simp [interTrace, countQueries]
  | succ n ih => simp [interTrace, countQueries, ih]

theorem monitorAux_queries_le (cfg : PollerCfg) (responses : Nat → RequestOutcome StatusResponse)
    (fuel : Nat) :
    ∀ a : Nat, countQueries (monitorAux cfg responses a fuel).2 ≤ fuel := by
  induction fuel with
  | zero => intro a; simp [monitorAux, countQueries]
  | succ fuel ih =>
      intro a
      by_cases hr : cfg.isReadyStr ((cfg.getStatus (responses a)).status) = true
      · simp [monitorAux_ready_step cfg responses a fuel hr, countQueries]
      · replace hr : cfg.isReadyStr ((cfg.getStatus (responses a)).status) = false := by
          simpa using hr
        by_cases hfl : cfg.isFailedStr ((cfg.getStatus (responses a)).status) = true
        · by_cases hz : fuel = 0
          · subst hz
            simp [monitorAux_failed_last_step cfg responses a hr hfl, countQueries]
          · rw [monitorAux_continue_step cfg responses a fuel hz hr]
            simp only [countQueries]
            have := ih (a + 1)
            omega
        · rw [monitorAux_nonterminal_step cfg responses a fuel hr (by simpa using hfl)]
          simp only [countQueries]
          have := ih (a + 1)
          omega

theorem monitorAux_outcome_shape (cfg : PollerCfg)
    (responses : Nat → RequestOutcome StatusResponse) (fuel : Nat) :
    ∀ a : Nat,
      (∃ s, (monitorAux cfg responses a fuel).1 = .ok s ∧ cfg.isReadyStr s.status = true) ∨
      (∃ m, (monitorAux cfg responses a fuel).1 = .error ("Deployment failed: " ++ m)) ∨
      (monitorAux cfg responses a fuel).1 = .error "Deployment timeout" := by
  induction fuel with
  | zero => intro a; right; right; simp [monitorAux]
  | succ fuel ih =>
      intro a
      by_cases hr : cfg.isReadyStr ((cfg.getStatus (responses a)).status) = true
      · left
        exact ⟨cfg.getStatus (responses a), by simp [monitorAux_ready_step cfg responses a fuel hr], hr⟩
      · replace hr : cfg.isReadyStr ((cfg.getStatus (responses a)).status) = false := by
          simpa using hr
        by_cases hfl : cfg.isFailedStr ((cfg.getStatus (responses a)).status) = true
        · by_cases hz : fuel = 0
          · subst hz
            right; left
            exact ⟨cfg.renderFailMsg ((cfg.getStatus (responses a)).error),
              by simp [monitorAux_failed_last_step cfg responses a hr hfl]⟩
          · rw [monitorAux_continue_step cfg responses a fuel hz hr]
            simpa using ih (a + 1)
        · rw [monitorAux_nonterminal_step cfg responses a fuel hr (by simpa using hfl)]
          simpa using ih (a + 1)

/-! ### Conversions between the source's `===` comparisons and propositional
hypotheses -/

theorem osReady_false {s : Option String} (h : s ≠ some "ready") :
    OpenShiftDeployment.pollerCfg.isReadyStr s = false := by
  simpa [OpenShiftDeployment.pollerCfg] using h

theorem osReady_true {s : Option String} (h : s = some "ready") :
    OpenShiftDeployment.pollerCfg.isReadyStr s = true := by
  simp [OpenShiftDeployment.pollerCfg, h]

theorem osFailed_false {s : Option String} (h : s ≠ some "failed") :
    OpenShiftDeployment.pollerCfg.isFailedStr s = false := by
  simpa [OpenShiftDeployment.pollerCfg] using h

theorem osFailed_true {s : Option String} (h : s = some "failed") :
    OpenShiftDeployment.pollerCfg.isFailedStr s = true := by
  simp [OpenShiftDeployment.pollerCfg, h]

theorem rhodsReady_false {s : Option String}
    (h1 : s ≠ some "ready") (h2 : s ≠ some "succeeded") :
    RHODSIntegration.pollerCfg.isReadyStr s = false := by
  simp [RHODSIntegration.pollerCfg, h1, h2]

theorem rhodsReady_true {s : Option String}
    (h : s = some "ready" ∨ s = some "succeeded") :
    RHODSIntegration.pollerCfg.isReadyStr s = true := by
  rcases h with h | h <;> simp [RHODSIntegration.pollerCfg, h]

/-- On any request outcome other than a resolved 2xx body, the OpenShift
status query manufactures the local `unknown` sentinel. -/
theorem os_status_unknown_of_not_success (req : RequestOutcome StatusResponse)
    (h : ∀ r, req ≠ .success r) :
    (OpenShiftDeployment.getDeploymentStatus req).status = some "unknown" := by
  cases req with
  | success r => exact absurd rfl (h r)
  | transportFault m => rfl
  | httpError code errField => rfl
  | parseFailure m => rfl

/-! ### Store lemmas -/

theorem Store.get_set_self (s : Store) (key : String) (v : DeploymentRecord) :
    Store.get (Store.set s key v) key = some v := by
  induction s with
  | nil => simp [Store.set, Store.get]
  | cons kv rest ih =>
      obtain ⟨k, w⟩ := kv
      by_cases hk : k = key
      · subst hk; simp [Store.set, Store.get]
      · simp [Store.set, Store.get, hk, ih]

theorem Store.get_set_ne (s : Store) (key k : String) (v : DeploymentRecord)
    (h : k ≠ key) :
    Store.get (Store.set s key v) k = Store.get s k := by
  induction s with
  | nil => simp [Store.set, Store.get, Ne.symm h]
  | cons kv rest ih =>
      obtain ⟨k', w⟩ := kv
      by_cases hk : k' = key
      · subst hk
        have hne : k' ≠ k := Ne.symm h
        simp [Store.set, Store.get, hne, Ne.symm h]
      · simp only [Store.set, if_neg hk]
        by_cases hkk : k' = k
        · simp [Store.get, hkk]
        · simp [Store.get, hkk, ih]

/-! ### Trace shape lemmas for the no-busy-wait property -/

theorem monitorAux_noAdjacentQueries (cfg : PollerCfg)
    (responses : Nat → RequestOutcome StatusResponse) (fuel : Nat) :
    ∀ a : Nat, noAdjacentQueries (monitorAux cfg responses a fuel).2 = true := by
  induction fuel with
  | zero => intro a; simp [monitorAux, noAdjacentQueries]
  | succ fuel ih =>
      intro a
      by_cases hr : cfg.isReadyStr ((cfg.getStatus (responses a)).status) = true
      · simp [monitorAux_ready_step cfg responses a fuel hr, noAdjacentQueries]
      · replace hr : cfg.isReadyStr ((cfg.getStatus (responses a)).status) = false := by
          simpa using hr
        by_cases hfl : cfg.isFailedStr ((cfg.getStatus (responses a)).status) = true
        · by_cases hz : fuel = 0
          · subst hz
            simp [monitorAux_failed_last_step cfg responses a hr hfl, noAdjacentQueries]
          · rw [monitorAux_continue_step cfg responses a fuel hz hr]
            simpa [noAdjacentQueries] using ih (a + 1)
        · rw [monitorAux_nonterminal_step cfg responses a fuel hr (by simpa using hfl)]
          simpa [noAdjacentQueries] using ih (a + 1)

theorem monitorAux_allSleepsHave (cfg : PollerCfg)
    (responses : Nat → RequestOutcome StatusResponse) (fuel : Nat) :
    ∀ a : Nat, allSleepsHave cfg.delay (monitorAux cfg responses a fuel).2 = true := by
  induction fuel with
  | zero => intro a; simp [monitorAux, allSleepsHave]
  | succ fuel ih =>
      intro a
      by_cases hr : cfg.isReadyStr ((cfg.getStatus (responses a)).status) = true
      · simp [monitorAux_ready_step cfg responses a fuel hr, allSleepsHave]
      · replace hr : cfg.isReadyStr ((cfg.getStatus (responses a)).status) = false := by
          simpa using hr
        by_cases hfl : cfg.isFailedStr ((cfg.getStatus (responses a)).status) = true
        · by_cases hz : fuel = 0
          · subst hz
            simp [monitorAux_failed_last_step cfg responses a hr hfl, allSleepsHave]
          · rw [monitorAux_continue_step cfg responses a fuel hz hr]
            simpa [allSleepsHave] using ih (a + 1)
        · rw [monitorAux_nonterminal_step cfg responses a fuel hr (by simpa using hfl)]
          simpa [allSleepsHave] using ih (a + 1)

/-- Shared consequence of `monitorAux_timeout` for the OpenShift poller:
all-non-terminal sessions run the full budget and time out. -/
theorem os_monitor_timeout_of_nonterminal
    (responses : Nat → RequestOutcome StatusResponse) (maxAttempts : Nat)
    (h : ∀ j, 1 ≤ j → j ≤ maxAttempts →
      (OpenShiftDeployment.getDeploymentStatus (responses j)).status ≠ some "ready" ∧
      (OpenShiftDeployment.getDeploymentStatus (responses j)).status ≠ some "failed") :
    OpenShiftDeployment.monitorDeployment responses maxAttempts =
      (.error "Deployment timeout", interTrace OpenShiftDeployment.delay 1 maxAttempts) ∧
    countQueries (OpenShiftDeployment.monitorDeployment responses maxAttempts).2 = maxAttempts := by
  have ht : OpenShiftDeployment.monitorDeployment responses maxAttempts =
      (.error "Deployment timeout", interTrace OpenShiftDeployment.delay 1 maxAttempts) :=
    monitorAux_timeout OpenShiftDeployment.pollerCfg responses maxAttempts 1
      (fun j h1 h2 =>
        ⟨osReady_false (h j h1 (by omega)).1, osFailed_false (h j h1 (by omega)).2⟩)
  refine ⟨ht, ?_⟩
  rw [ht]
  simp [countQueries_interTrace]

/-! ### Claim theorems -/

/-- C3: if every attempt of a poll session returns a non-terminal status
(anything other than the OpenShift terminal strings `ready` and `failed`,
so in particular `deploying` and the local `unknown` sentinel), the loop
issues exactly `maxAttempts` status queries — the trace is the full
alternation of `maxAttempts` queries and suspensions, so no further query is
issued — and terminates by throwing the `Deployment timeout` error. -/
theorem nonterminal_statuses_exhaust_budget_timeout
    (responses : Nat → RequestOutcome StatusResponse) (maxAttempts : Nat)
    (h : ∀ j, 1 ≤ j → j ≤ maxAttempts →
      (OpenShiftDeployment.getDeploymentStatus (responses j)).status ≠ some "ready" ∧
      (OpenShiftDeployment.getDeploymentStatus (responses j)).status ≠ some "failed") :
    OpenShiftDeployment.monitorDeployment responses maxAttempts =
      (.error "Deployment timeout", interTrace OpenShiftDeployment.delay 1 maxAttempts) ∧
    countQueries (OpenShiftDeployment.monitorDeployment responses maxAttempts).2 = maxAttempts :=
  os_monitor_timeout_of_nonterminal responses maxAttempts h

/-- C3 witness: with `maxAttempts = 2` and the remote answering `deploying`
to every query, the session makes exactly the queries of attempts 1 and 2 and
ends with the `Deployment timeout` error. -/
theorem nonterminal_statuses_exhaust_budget_timeout_wit :
    OpenShiftDeployment.monitorDeployment
        (fun _ => .success ⟨some "deploying", none, none, none⟩) 2 =
      (.error "Deployment timeout",
        [.query 1, .sleep 5000, .query 2, .sleep 5000]) ∧
    countQueries (OpenShiftDeployment.monitorDeployment
        (fun _ => .success ⟨some "deploying", none, none, none⟩) 2).2 = 2 := by
  have hnt : ∀ j : Nat, 1 ≤ j → j ≤ 2 →
      (OpenShiftDeployment.getDeploymentStatus
        (.success ⟨some "deploying", none, none, none⟩)).status ≠ some "ready" ∧
      (OpenShiftDeployment.getDeploymentStatus
        (.success ⟨some "deploying", none, none, none⟩)).status ≠ some "failed" :=
    fun _ _ _ => ⟨by decide, by decide⟩
  exact nonterminal_statuses_exhaust_budget_timeout
    (fun _ => .success ⟨some "deploying", none, none, none⟩) 2 hnt

/-- C5: the poll loop is a total function of the response sequence, so each
invocation produces exactly one outcome; that outcome is one of exactly three
terminal forms — a returned `ready` status, a thrown `Deployment failed: ...`
error, or the thrown `Deployment timeout` error — and the session never makes
more than `maxAttempts` status queries. -/
theorem monitor_exactly_one_terminal_outcome
    (responses : Nat → RequestOutcome StatusResponse) (maxAttempts : Nat) :
    ((∃ s, (OpenShiftDeployment.monitorDeployment responses maxAttempts).1 = .ok s ∧
        s.status = some "ready") ∨
      (∃ m, (OpenShiftDeployment.monitorDeployment responses maxAttempts).1 =
        .error ("Deployment failed: " ++ m)) ∨
      (OpenShiftDeployment.monitorDeployment responses maxAttempts).1 =
        .error "Deployment timeout") ∧
    countQueries (OpenShiftDeployment.monitorDeployment responses maxAttempts).2 ≤ maxAttempts := by
  constructor
  · have h := monitorAux_outcome_shape OpenShiftDeployment.pollerCfg responses maxAttempts 1
    rcases h with ⟨s, hs, hr⟩ | h | h
    · exact Or.inl ⟨s, hs, by simpa [OpenShiftDeployment.pollerCfg] using hr⟩
    · exact Or.inr (Or.inl h)
    · exact Or.inr (Or.inr h)
  · exact monitorAux_queries_le OpenShiftDeployment.pollerCfg responses maxAttempts 1

/-- C8: in every poll session of either integration, no two status queries
are adjacent in the event trace — every successive pair of queries has a
timed suspension strictly between them, on the non-terminal path and on the
swallowed-failure path alike — and every suspension lasts exactly the
integration's fixed polling interval. -/
theorem poll_loop_sleeps_between_queries
    (responses : Nat → RequestOutcome StatusResponse) (maxAttempts : Nat) :
    (noAdjacentQueries (OpenShiftDeployment.monitorDeployment responses maxAttempts).2 = true ∧
      allSleepsHave OpenShiftDeployment.delay
        (OpenShiftDeployment.monitorDeployment responses maxAttempts).2 = true) ∧
    (noAdjacentQueries (RHODSIntegration.monitorDeployment responses maxAttempts).2 = true ∧
      allSleepsHave RHODSIntegration.delay
        (RHODSIntegration.monitorDeployment responses maxAttempts).2 = true) :=
  ⟨⟨monitorAux_noAdjacentQueries OpenShiftDeployment.pollerCfg responses maxAttempts 1,
      monitorAux_allSleepsHave OpenShiftDeployment.pollerCfg responses maxAttempts 1⟩,
    ⟨monitorAux_noAdjacentQueries RHODSIntegration.pollerCfg responses maxAttempts 1,
      monitorAux_allSleepsHave RHODSIntegration.pollerCfg responses maxAttempts 1⟩⟩

/-- C9 counterexample: a status body that `JSON.parse` rejects makes the
RHODS `getDeploymentStatus` return the value `makeRHODSRequest` RESOLVES
with — `{ success: false, error: 'Invalid response: ...' }`, which carries
the message but has NO `status` field — so the claim that every failure case
yields `status: 'unknown'` is false for the RHODS integration. -/
theorem rhods_parse_failure_status_not_unknown_cex :
    RHODSIntegration.getDeploymentStatus (.parseFailure "Unexpected token u") =
      ⟨none, none, some "Invalid response: Unexpected token u", some false⟩ ∧
    (RHODSIntegration.getDeploymentStatus (.parseFailure "Unexpected token u")).status ≠
      some "unknown" :=
  ⟨rfl, by decide⟩

/-- C9 (amended): both status queries are total — every request outcome maps
to a returned value, never a raised error.  The OpenShift version returns the
locally built `{ status: 'unknown', error: <message> }` on every failure
(transport fault, parsed non-2xx body, unparseable body), and the RHODS
version does so on transport faults and parsed non-2xx bodies, while an
unparseable body yields the resolved `{ success: false, error: ... }` value
with no status field.  In all cases the failure value is produced locally
and carries the underlying error message. -/
theorem status_query_total_failure_shapes (r : StatusResponse) (m : String)
    (code : Nat) (errField : Option String) :
    OpenShiftDeployment.getDeploymentStatus (.success r) = r ∧
    OpenShiftDeployment.getDeploymentStatus (.transportFault m) =
      ⟨some "unknown", none, some m, none⟩ ∧
    OpenShiftDeployment.getDeploymentStatus (.httpError code errField) =
      ⟨some "unknown", none, some (jsOr errField ("HTTP " ++ toString code)), none⟩ ∧
    OpenShiftDeployment.getDeploymentStatus (.parseFailure m) =
      ⟨some "unknown", none, some ("Invalid response: " ++ m), none⟩ ∧
    RHODSIntegration.getDeploymentStatus (.success r) = r ∧
    RHODSIntegration.getDeploymentStatus (.transportFault m) =
      ⟨some "unknown", none, some m, none⟩ ∧
    RHODSIntegration.getDeploymentStatus (.httpError code errField) =
      ⟨some "unknown", none, some (jsOr errField ("HTTP " ++ toString code)), none⟩ ∧
    RHODSIntegration.getDeploymentStatus (.parseFailure m) =
      ⟨none, none, some ("Invalid response: " ++ m), some false⟩ :=
  ⟨rfl, rfl, rfl, rfl, rfl, rfl, rfl, rfl⟩

/-- C4 counterexample: the OpenShift poller does NOT treat `succeeded` as a
ready-synonym — a session whose only attempt returns `succeeded` ends in the
`Deployment timeout` error instead of terminating Ready at that attempt. -/
theorem openshift_succeeded_not_ready_cex :
    OpenShiftDeployment.monitorDeployment
        (fun _ => .success ⟨some "succeeded", some "http://ep", none, none⟩) 1 =
      (.error "Deployment timeout", [.query 1, .sleep 5000]) := rfl

/-- C4 (amended): each poller terminates with outcome Ready at the first
attempt whose status matches its own ready set — exactly the string `ready`
for OpenShift, `ready` or `succeeded` for RHODS — returning the full status
response (hence the endpoint); the trace shows exactly `k` queries, so the
loop stops neither before nor after attempt `k`. -/
theorem ready_synonym_terminates_at_attempt_k
    (responses : Nat → RequestOutcome StatusResponse) (maxAttempts k : Nat)
    (h1 : 1 ≤ k) (h2 : k ≤ maxAttempts) :
    ((∀ j, 1 ≤ j → j < k →
        (OpenShiftDeployment.getDeploymentStatus (responses j)).status ≠ some "ready") →
      (OpenShiftDeployment.getDeploymentStatus (responses k)).status = some "ready" →
      OpenShiftDeployment.monitorDeployment responses maxAttempts =
        (.ok (OpenShiftDeployment.getDeploymentStatus (responses k)),
          interTrace OpenShiftDeployment.delay 1 (k - 1) ++ [.query k]) ∧
      countQueries (OpenShiftDeployment.monitorDeployment responses maxAttempts).2 = k) ∧
    ((∀ j, 1 ≤ j → j < k →
        (RHODSIntegration.getDeploymentStatus (responses j)).status ≠ some "ready" ∧
        (RHODSIntegration.getDeploymentStatus (responses j)).status ≠ some "succeeded") →
      ((RHODSIntegration.getDeploymentStatus (responses k)).status = some "ready" ∨
        (RHODSIntegration.getDeploymentStatus (responses k)).status = some "succeeded") →
      RHODSIntegration.monitorDeployment responses maxAttempts =
        (.ok (RHODSIntegration.getDeploymentStatus (responses k)),
          interTrace RHODSIntegration.delay 1 (k - 1) ++ [.query k]) ∧
      countQueries (RHODSIntegration.monitorDeployment responses maxAttempts).2 = k) := by
  constructor
  · intro hprev hk
    have heq : OpenShiftDeployment.monitorDeployment responses maxAttempts =
        (.ok (OpenShiftDeployment.getDeploymentStatus (responses k)),
          interTrace OpenShiftDeployment.delay 1 (k - 1) ++ [.query k]) :=
      monitorAux_ready_at OpenShiftDeployment.pollerCfg responses 1 maxAttempts k h1
        (by omega) (fun j hj1 hj2 => osReady_false (hprev j hj1 hj2)) (osReady_true hk)
    refine ⟨heq, ?_⟩
    rw [heq]
    simp [countQueries_append, countQueries_interTrace, countQueries]
    omega
  · intro hprev hk
    have heq : RHODSIntegration.monitorDeployment responses maxAttempts =
        (.ok (RHODSIntegration.getDeploymentStatus (responses k)),
          interTrace RHODSIntegration.delay 1 (k - 1) ++ [.query k]) :=
      monitorAux_ready_at RHODSIntegration.pollerCfg responses 1 maxAttempts k h1
        (by omega)
        (fun j hj1 hj2 => rhodsReady_false (hprev j hj1 hj2).1 (hprev j hj1 hj2).2)
        (rhodsReady_true hk)
    refine ⟨heq, ?_⟩
    rw [heq]
    simp [countQueries_append, countQueries_interTrace, countQueries]
    omega

/-- C4 witness: with attempt 1 answering `deploying` and attempt 2 answering
`ready` (a ready-synonym for both pollers) under a budget of 3, both pollers
stop at attempt 2 with outcome Ready carrying the endpoint, after exactly 2
queries. -/
theorem ready_synonym_terminates_at_attempt_k_wit :
    (OpenShiftDeployment.monitorDeployment
        (fun n => if n = 1 then .success ⟨some "deploying", none, none, none⟩
          else .success ⟨some "ready", some "http://ep", none, none⟩) 3 =
      (.ok ⟨some "ready", some "http://ep", none, none⟩,
        [.query 1, .sleep 5000, .query 2]) ∧
      countQueries (OpenShiftDeployment.monitorDeployment
        (fun n => if n = 1 then .success ⟨some "deploying", none, none, none⟩
          else .success ⟨some "ready", some "http://ep", none, none⟩) 3).2 = 2) ∧
    (RHODSIntegration.monitorDeployment
        (fun n => if n = 1 then .success ⟨some "deploying", none, none, none⟩
          else .success ⟨some "ready", some "http://ep", none, none⟩) 3 =
      (.ok ⟨some "ready", some "http://ep", none, none⟩,
        [.query 1, .sleep 10000, .query 2]) ∧
      countQueries (RHODSIntegration.monitorDeployment
        (fun n => if n = 1 then .success ⟨some "deploying", none, none, none⟩
          else .success ⟨some "ready", some "http://ep", none, none⟩) 3).2 = 2) := by
  have h := ready_synonym_terminates_at_attempt_k
    (fun n => if n = 1 then .success ⟨some "deploying", none, none, none⟩
      else .success ⟨some "ready", some "http://ep", none, none⟩) 3 2
    (by decide) (by decide)
  have hosPrev : ∀ j : Nat, 1 ≤ j → j < 2 →
      (OpenShiftDeployment.getDeploymentStatus
        ((fun n => if n = 1 then .success ⟨some "deploying", none, none, none⟩
          else .success ⟨some "ready", some "http://ep", none, none⟩) j)).status ≠
        some "ready" := by
    intro j hj1 hj2
    have hj : j = 1 := by omega
    subst hj
    decide
  have hrhPrev : ∀ j : Nat, 1 ≤ j → j < 2 →
      (RHODSIntegration.getDeploymentStatus
        ((fun n => if n = 1 then .success ⟨some "deploying", none, none, none⟩
          else .success ⟨some "ready", some "http://ep", none, none⟩) j)).status ≠
        some "ready" ∧
      (RHODSIntegration.getDeploymentStatus
        ((fun n => if n = 1 then .success ⟨some "deploying", none, none, none⟩
          else .success ⟨some "ready", some "http://ep", none, none⟩) j)).status ≠
        some "succeeded" := by
    intro j hj1 hj2
    have hj : j = 1 := by omega
    subst hj
    exact ⟨by decide, by decide⟩
  exact ⟨h.1 hosPrev (by decide), h.2 hrhPrev (Or.inl (by decide))⟩

/-- C1 counterexample: a `failed` status on an attempt with budget remaining
does NOT terminate the session.  With `maxAttempts = 2` and responses
`failed` (with error `boom`) then `ready`, the `throw` for the failed status
is caught by the loop's own `catch`, which sleeps and retries because
attempt 1 is not the last; the session goes on to terminate Ready at
attempt 2 instead of Failed at attempt 1. -/
theorem failed_status_before_last_swallowed_cex :
    OpenShiftDeployment.monitorDeployment
        (fun n => if n = 1 then .success ⟨some "failed", none, some "boom", none⟩
          else .success ⟨some "ready", some "http://ep", none, none⟩) 2 =
      (.ok ⟨some "ready", some "http://ep", none, none⟩,
        [.query 1, .sleep 5000, .query 2]) := rfl

/-- C1 (amended): in the OpenShift poller only the exact string `failed` is a
failed status (`error` is non-terminal there), and a `failed` status is
terminal only when it occurs on the final attempt: then the session ends at
attempt `k = maxAttempts` with the thrown
`Deployment failed: <status.error>` message after exactly `k` queries.
On any earlier attempt the thrown failure is swallowed by the loop's own
`catch` and the loop sleeps and issues the next query, so the failed status
is not surfaced.  (The RHODS poller behaves the same way with its failed set
`failed`/`error`.) -/
theorem failed_status_terminal_only_on_last_attempt
    (responses : Nat → RequestOutcome StatusResponse) (maxAttempts k : Nat)
    (h1 : 1 ≤ k) (h2 : k ≤ maxAttempts)
    (hprev : ∀ j, 1 ≤ j → j < k →
      (OpenShiftDeployment.getDeploymentStatus (responses j)).status ≠ some "ready")
    (hk : (OpenShiftDeployment.getDeploymentStatus (responses k)).status = some "failed") :
    (k = maxAttempts →
      OpenShiftDeployment.monitorDeployment responses maxAttempts =
        (.error ("Deployment failed: " ++
            jsTemplate ((OpenShiftDeployment.getDeploymentStatus (responses k)).error)),
          interTrace OpenShiftDeployment.delay 1 (k - 1) ++ [.query k]) ∧
      countQueries (OpenShiftDeployment.monitorDeployment responses maxAttempts).2 = k) ∧
    (k < maxAttempts →
      Event.query (k + 1) ∈ (OpenShiftDeployment.monitorDeployment responses maxAttempts).2) := by
  have hkr : OpenShiftDeployment.pollerCfg.isReadyStr
      ((OpenShiftDeployment.getDeploymentStatus (responses k)).status) = false :=
    osReady_false (by rw [hk]; decide)
  constructor
  · intro hlast
    have heq : OpenShiftDeployment.monitorDeployment responses maxAttempts =
        (.error ("Deployment failed: " ++
            jsTemplate ((OpenShiftDeployment.getDeploymentStatus (responses k)).error)),
          interTrace OpenShiftDeployment.delay 1 (k - 1) ++ [.query k]) :=
      monitorAux_failed_at_last OpenShiftDeployment.pollerCfg responses 1 maxAttempts k h1
        (by omega) (fun j hj1 hj2 => osReady_false (hprev j hj1 hj2)) hkr (osFailed_true hk)
    refine ⟨heq, ?_⟩
    rw [heq]
    simp [countQueries_append, countQueries_interTrace, countQueries]
    omega
  · intro hmid
    exact monitorAux_continues_past OpenShiftDeployment.pollerCfg responses 1 maxAttempts k h1
      (by omega) (fun j hj1 hj2 => osReady_false (hprev j hj1 hj2)) hkr

/-- C1 witness: with `maxAttempts = 2`, attempt 1 `deploying` and attempt 2
(the final attempt) `failed` with error `boom`, the session ends with the
thrown `Deployment failed: boom` after exactly the 2 queries. -/
theorem failed_status_terminal_only_on_last_attempt_wit :
    OpenShiftDeployment.monitorDeployment
        (fun n => if n = 1 then .success ⟨some "deploying", none, none, none⟩
          else .success ⟨some "failed", none, some "boom", none⟩) 2 =
      (.error "Deployment failed: boom", [.query 1, .sleep 5000, .query 2]) ∧
    countQueries (OpenShiftDeployment.monitorDeployment
        (fun n => if n = 1 then .success ⟨some "deploying", none, none, none⟩
          else .success ⟨some "failed", none, some "boom", none⟩) 2).2 = 2 := by
  have hprev : ∀ j : Nat, 1 ≤ j → j < 2 →
      (OpenShiftDeployment.getDeploymentStatus
        ((fun n => if n = 1 then .success ⟨some "deploying", none, none, none⟩
          else .success ⟨some "failed", none, some "boom", none⟩) j)).status ≠
        some "ready" := by
    intro j hj1 hj2
    have hj : j = 1 := by omega
    subst hj
    decide
  exact (failed_status_terminal_only_on_last_attempt
    (fun n => if n = 1 then .success ⟨some "deploying", none, none, none⟩
      else .success ⟨some "failed", none, some "boom", none⟩) 2 2
    (by decide) (by decide) hprev (by decide)).1 rfl

/-- C2 counterexample: a transport error on the final (here: only) attempt is
NOT propagated to the caller.  `getDeploymentStatus` converts it into the
local `unknown` status (keeping the message in its `error` field), the loop
treats that as non-terminal, and the session ends with the generic
`Deployment timeout` error, which is a different error that does not carry
the transport error's message. -/
theorem final_attempt_transport_error_discarded_cex :
    OpenShiftDeployment.monitorDeployment
        (fun _ => .transportFault "connect ECONNREFUSED") 1 =
      (.error "Deployment timeout", [.query 1, .sleep 5000]) ∧
    (OpenShiftDeployment.getDeploymentStatus
        (.transportFault "connect ECONNREFUSED")).error = some "connect ECONNREFUSED" ∧
    (OpenShiftDeployment.monitorDeployment
        (fun _ => .transportFault "connect ECONNREFUSED") 1).1 ≠
      .error "connect ECONNREFUSED" := by
  refine ⟨rfl, rfl, fun hc => ?_⟩
  have hc' : (Except.error "Deployment timeout" : Except String StatusResponse) =
      .error "connect ECONNREFUSED" := hc
  injection hc' with hmsg
  exact absurd hmsg (by decide)

/-- C2 (amended): a transport or parse error on a status query never
terminates the poll loop and is never surfaced to the caller — on the final
attempt as well as earlier ones.  Each such error is converted locally into
the non-terminal `unknown` status, so a session whose every attempt fails
this way still issues all `maxAttempts` queries and then ends with the
generic `Deployment timeout` error, which does not carry the underlying
error messages. -/
theorem transport_errors_swallowed_every_attempt
    (responses : Nat → RequestOutcome StatusResponse) (maxAttempts : Nat)
    (h : ∀ j, 1 ≤ j → j ≤ maxAttempts → ∀ r, responses j ≠ .success r) :
    OpenShiftDeployment.monitorDeployment responses maxAttempts =
      (.error "Deployment timeout", interTrace OpenShiftDeployment.delay 1 maxAttempts) ∧
    countQueries (OpenShiftDeployment.monitorDeployment responses maxAttempts).2 =
      maxAttempts := by
  refine os_monitor_timeout_of_nonterminal responses maxAttempts ?_
  intro j hj1 hj2
  have hu := os_status_unknown_of_not_success (responses j) (h j hj1 hj2)
  rw [hu]
  exact ⟨by decide, by decide⟩

/-- C2 witness: with `maxAttempts = 2`, a parse failure on attempt 1 and a
transport fault on attempt 2, the session still makes both queries and ends
with the generic `Deployment timeout` error. -/
theorem transport_errors_swallowed_every_attempt_wit :
    OpenShiftDeployment.monitorDeployment
        (fun n => if n = 1 then .parseFailure "Unexpected token <"
          else .transportFault "ECONNREFUSED") 2 =
      (.error "Deployment timeout",
        [.query 1, .sleep 5000, .query 2, .sleep 5000]) ∧
    countQueries (OpenShiftDeployment.monitorDeployment
        (fun n => if n = 1 then .parseFailure "Unexpected token <"
          else .transportFault "ECONNREFUSED") 2).2 = 2 := by
  have h : ∀ j : Nat, 1 ≤ j → j ≤ 2 →
      ∀ r : StatusResponse,
        (fun n : Nat => if n = 1 then RequestOutcome.parseFailure "Unexpected token <"
          else RequestOutcome.transportFault "ECONNREFUSED") j ≠ .success r := by
    intro j hj1 hj2 r
    by_cases hj : j = 1 <;> simp [hj]
  exact transport_errors_swallowed_every_attempt
    (fun n => if n = 1 then .parseFailure "Unexpected token <"
      else .transportFault "ECONNREFUSED") 2 h

/-- C6: a submission creates a deployment record exactly when the deploy
request resolves a 2xx body whose `success` flag is set: then the store holds
a fresh record under the submitted name with status `deploying` and the
remote-assigned endpoint.  On a resolved body with `success` false the call
throws `response.error || 'Deployment failed'` and the store is unchanged;
on a rejected request (transport fault, non-2xx, unparseable body) the
rejection is rethrown and the store is unchanged.  In both failure cases no
monitoring happens (empty trace) and, structurally, exactly one deploy
request is consumed — the submitter never retries. -/
theorem deploy_record_created_iff_success
    (store : Store) (name now : String)
    (statusResponses : Nat → RequestOutcome StatusResponse) (maxAttempts : Nat) :
    (∀ r : DeployResponse, r.success = true →
      (OpenShiftDeployment.deployModel store name now (.success r)
          statusResponses maxAttempts).2.1 =
        Store.set store name ⟨r.endpoint, "deploying", now⟩ ∧
      Store.get (OpenShiftDeployment.deployModel store name now (.success r)
          statusResponses maxAttempts).2.1 name =
        some ⟨r.endpoint, "deploying", now⟩) ∧
    (∀ r : DeployResponse, r.success = false →
      OpenShiftDeployment.deployModel store name now (.success r)
          statusResponses maxAttempts =
        (.error (jsOr r.error "Deployment failed"), store, [])) ∧
    (∀ (deployReq : RequestOutcome DeployResponse) (msg : String),
      OpenShiftDeployment.makeRequest deployReq = .error msg →
      OpenShiftDeployment.deployModel store name now deployReq
          statusResponses maxAttempts =
        (.error msg, store, [])) := by
  refine ⟨fun r hr => ?_, fun r hr => ?_, fun deployReq msg hm => ?_⟩
  · constructor
    · simp [OpenShiftDeployment.deployModel, OpenShiftDeployment.makeRequest, hr]
    · simp [OpenShiftDeployment.deployModel, OpenShiftDeployment.makeRequest, hr,
        Store.get_set_self]
  · simp [OpenShiftDeployment.deployModel, OpenShiftDeployment.makeRequest, hr]
  · simp [OpenShiftDeployment.deployModel, hm]

/-- C6 witness: on an empty store, a successful submission of `m` leaves a
record `{ endpoint: http://ep, status: deploying, deployed_at: t }`; a
`success:false` body and a transport fault each leave the store empty and
surface the corresponding message. -/
theorem deploy_record_created_iff_success_wit :
    ((OpenShiftDeployment.deployModel [] "m" "t"
        (.success ⟨true, some "http://ep", none⟩)
        (fun _ => .success ⟨some "ready", some "http://ep", none, none⟩) 1).2.1 =
      [("m", ⟨some "http://ep", "deploying", "t"⟩)] ∧
      Store.get (OpenShiftDeployment.deployModel [] "m" "t"
        (.success ⟨true, some "http://ep", none⟩)
        (fun _ => .success ⟨some "ready", some "http://ep", none, none⟩) 1).2.1 "m" =
        some ⟨some "http://ep", "deploying", "t"⟩) ∧
    OpenShiftDeployment.deployModel [] "m" "t"
        (.success ⟨false, none, some "quota exceeded"⟩)
        (fun _ => .success ⟨some "ready", some "http://ep", none, none⟩) 1 =
      (.error "quota exceeded", [], []) ∧
    OpenShiftDeployment.deployModel [] "m" "t"
        (.transportFault "getaddrinfo ENOTFOUND")
        (fun _ => .success ⟨some "ready", some "http://ep", none, none⟩) 1 =
      (.error "getaddrinfo ENOTFOUND", [], []) := by
  have h := deploy_record_created_iff_success [] "m" "t"
    (fun _ => .success ⟨some "ready", some "http://ep", none, none⟩) 1
  exact ⟨h.1 ⟨true, some "http://ep", none⟩ rfl,
    h.2.1 ⟨false, none, some "quota exceeded"⟩ rfl,
    h.2.2 (.transportFault "getaddrinfo ENOTFOUND") "getaddrinfo ENOTFOUND" rfl⟩

/-- C7: invoking inference on a name with no record in the local store fails
immediately with the `Model <name> not deployed` error and makes zero
outbound requests — the record lookup happens before any request is issued. -/
theorem infer_unknown_name_no_network_call {α : Type} (store : Store)
    (modelName : String) (req : RequestOutcome α)
    (h : Store.get store modelName = none) :
    OpenShiftDeployment.runInference store modelName req =
      (.error ("Model " ++ modelName ++ " not deployed"), 0) := by
  simp [OpenShiftDeployment.runInference, h]

/-- C7 witness: inference on `ghost-model` with an empty store fails with the
`not deployed` message and zero network calls. -/
theorem infer_unknown_name_no_network_call_wit :
    OpenShiftDeployment.runInference ([] : Store) "ghost-model"
        (.success "ok") =
      (.error "Model ghost-model not deployed", 0) :=
  infer_unknown_name_no_network_call [] "ghost-model" (.success "ok") rfl

/-- C10: the poll loop never mutates the deployment store.  The final store
of a submission is the same whatever poll session follows it — for any two
response sequences and any two attempt budgets, including sessions ending
Ready, Failed, or Timeout — because `monitorDeployment` contains no store
access; and a submission touches no key other than the submitted name, so
every other record is unchanged under any outcome.  Together with C6's
record shape this means the record inserted at submission still holds
`status: deploying` with the same endpoint and timestamp after the session. -/
theorem poll_session_preserves_store
    (store : Store) (name now : String) (deployReq : RequestOutcome DeployResponse)
    (s1 s2 : Nat → RequestOutcome StatusResponse) (max1 max2 : Nat) :
    ((OpenShiftDeployment.deployModel store name now deployReq s1 max1).2.1 =
      (OpenShiftDeployment.deployModel store name now deployReq s2 max2).2.1) ∧
    (∀ k, k ≠ name →
      Store.get (OpenShiftDeployment.deployModel store name now deployReq s1 max1).2.1 k =
        Store.get store k) := by
  constructor
  · cases hm : OpenShiftDeployment.makeRequest deployReq with
    | error msg => simp [OpenShiftDeployment.deployModel, hm]
    | ok r =>
        by_cases hs : r.success <;>
          simp [OpenShiftDeployment.deployModel, hm, hs]
  · intro k hk
    cases hm : OpenShiftDeployment.makeRequest deployReq with
    | error msg => simp [OpenShiftDeployment.deployModel, hm]
    | ok r =>
        by_cases hs : r.success <;>
          simp [OpenShiftDeployment.deployModel, hm, hs, Store.get_set_ne store name k _ hk]

/-- C10 witness: starting from a store holding `old`, submitting `m` and
polling with two different sessions (one ending Ready after 1 attempt, one
ending with a swallowed failed status and then Timeout after 2) yields the
same final store, and the `old` record is untouched. -/
theorem poll_session_preserves_store_wit :
    ((OpenShiftDeployment.deployModel [("old", ⟨some "http://old", "deploying", "t0"⟩)]
        "m" "t1" (.success ⟨true, some "http://ep", none⟩)
        (fun _ => .success ⟨some "ready", some "http://ep", none, none⟩) 1).2.1 =
      (OpenShiftDeployment.deployModel [("old", ⟨some "http://old", "deploying", "t0"⟩)]
        "m" "t1" (.success ⟨true, some "http://ep", none⟩)
        (fun _ => .success ⟨some "failed", none, some "boom", none⟩) 2).2.1) ∧
    Store.get (OpenShiftDeployment.deployModel
        [("old", ⟨some "http://old", "deploying", "t0"⟩)]
        "m" "t1" (.success ⟨true, some "http://ep", none⟩)
        (fun _ => .success ⟨some "ready", some "http://ep", none, none⟩) 1).2.1 "old" =
      Store.get [("old", ⟨some "http://old", "deploying", "t0"⟩)] "old" := by
  have h := poll_session_preserves_store
    [("old", ⟨some "http://old", "deploying", "t0"⟩)] "m" "t1"
    (.success ⟨true, some "http://ep", none⟩)
    (fun _ => .success ⟨some "ready", some "http://ep", none, none⟩)
    (fun _ => .success ⟨some "failed", none, some "boom", none⟩) 1 2
  exact ⟨h.1, h.2 "old" (by decide)⟩
